import Mathlib

/-!
Verification of the MARG orientation-filter repository (MARGfilter.cpp plus
the sampling/calibration main program) against its natural-language
specification.

Modelling conventions:
* C++ `double` arithmetic is modelled over the real numbers `ℝ`; the
  accumulator and calibration code, which uses only ring operations and
  division, is modelled over `ℚ` so that it stays executable.
* IEEE division by zero in the filter produces NaN, which then contaminates
  every member of the orientation state (every downstream expression
  multiplies or adds a NaN operand).  `updateFilter` therefore returns
  `Option MARG`: `none` models the NaN-poisoned state that the C++ code
  leaves behind when one of its four normalisation divisors is zero, and
  `some st` is the real-arithmetic result otherwise.  A divisor
  `sqrt s` is zero exactly when the sum of squares `s` is zero, so the
  guards test the sums of squares.
-/

/-- Orientation-filter state: the member variables of class `MARGfilter`
(MARGfilter.cpp).  `phi`, `theta`, `psi` are the Euler angles written only by
`computeEuler`; the C++ constructor leaves them uninitialised, which the
embedding models by passing arbitrary initial values to `margInit`. -/
structure MARG where
  firstUpdate : ℕ
  AEq_1 : ℝ
  AEq_2 : ℝ
  AEq_3 : ℝ
  AEq_4 : ℝ
  SEq_1 : ℝ
  SEq_2 : ℝ
  SEq_3 : ℝ
  SEq_4 : ℝ
  deltat : ℝ
  gyroMeasError : ℝ
  gyroMeasDrift : ℝ
  b_x : ℝ
  b_z : ℝ
  w_bx : ℝ
  w_by : ℝ
  w_bz : ℝ
  beta : ℝ
  zeta : ℝ
  phi : ℝ
  theta : ℝ
  psi : ℝ

/-- One input to `updateFilter`: gyroscope rates, accelerometer and
magnetometer axis readings (MARGfilter.cpp line 77). -/
structure MARGIn where
  w_x : ℝ
  w_y : ℝ
  w_z : ℝ
  a_x : ℝ
  a_y : ℝ
  a_z : ℝ
  m_x : ℝ
  m_y : ℝ
  m_z : ℝ

/-- Constructor `MARGfilter::MARGfilter` (MARGfilter.cpp lines 41-75).
The C++ constructor never writes `phi`, `theta`, `psi`; the parameters
`phi0`, `theta0`, `psi0` stand for the arbitrary uninitialised contents of
those members. -/
noncomputable def margInit (rate gyroscopeMeasurementError gyroscopeMeasurementDrift
    phi0 theta0 psi0 : ℝ) : MARG :=
  { firstUpdate := 0
    AEq_1 := 1, AEq_2 := 0, AEq_3 := 0, AEq_4 := 0
    SEq_1 := 1, SEq_2 := 0, SEq_3 := 0, SEq_4 := 0
    deltat := rate
    gyroMeasError := gyroscopeMeasurementError
    gyroMeasDrift := gyroscopeMeasurementDrift
    b_x := 1, b_z := 0
    w_bx := 0, w_by := 0, w_bz := 0
    beta := Real.sqrt (3 / 4) * (Real.pi * (gyroscopeMeasurementError / 180))
    zeta := Real.sqrt (3 / 4) * (Real.pi * (gyroscopeMeasurementDrift / 180))
    phi := phi0, theta := theta0, psi := psi0 }

/-- `MARGfilter::reset` (MARGfilter.cpp lines 258-281): restores the
uninitialised-state members; `deltat`, the gains and the Euler angles are
not touched. -/
def margReset (st : MARG) : MARG :=
  { st with
    firstUpdate := 0
    AEq_1 := 1, AEq_2 := 0, AEq_3 := 0, AEq_4 := 0
    SEq_1 := 1, SEq_2 := 0, SEq_3 := 0, SEq_4 := 0
    b_x := 1, b_z := 0
    w_bx := 0, w_by := 0, w_bz := 0 }

/-- Euclidean norm of a 3-vector, `sqrt(x*x + y*y + z*z)`
(MARGfilter.cpp lines 117, 122). -/
noncomputable def norm3 (x y z : ℝ) : ℝ := Real.sqrt (x * x + y * y + z * z)

/-- Euclidean norm of a 4-vector (MARGfilter.cpp lines 157, 184). -/
noncomputable def norm4 (a b c d : ℝ) : ℝ := Real.sqrt (a * a + b * b + c * c + d * d)

/-- Normalised accelerometer x component (MARGfilter.cpp line 118). -/
noncomputable def aHat_x (u : MARGIn) : ℝ := u.a_x / norm3 u.a_x u.a_y u.a_z

/-- Normalised accelerometer y component (MARGfilter.cpp line 119). -/
noncomputable def aHat_y (u : MARGIn) : ℝ := u.a_y / norm3 u.a_x u.a_y u.a_z

/-- Normalised accelerometer z component (MARGfilter.cpp line 120). -/
noncomputable def aHat_z (u : MARGIn) : ℝ := u.a_z / norm3 u.a_x u.a_y u.a_z

/-- Normalised magnetometer x component (MARGfilter.cpp line 123). -/
noncomputable def mHat_x (u : MARGIn) : ℝ := u.m_x / norm3 u.m_x u.m_y u.m_z

/-- Normalised magnetometer y component (MARGfilter.cpp line 124). -/
noncomputable def mHat_y (u : MARGIn) : ℝ := u.m_y / norm3 u.m_x u.m_y u.m_z

/-- Normalised magnetometer z component (MARGfilter.cpp line 125). -/
noncomputable def mHat_z (u : MARGIn) : ℝ := u.m_z / norm3 u.m_x u.m_y u.m_z

/-- Objective-function element `f_1` (MARGfilter.cpp line 127), with
`twoSEq_i = 2*SEq_i` expanded and `ax` the normalised accelerometer x. -/
def marg_f1 (st : MARG) (ax : ℝ) : ℝ :=
  2 * st.SEq_2 * st.SEq_4 - 2 * st.SEq_1 * st.SEq_3 - ax

/-- Objective-function element `f_2` (MARGfilter.cpp line 128). -/
def marg_f2 (st : MARG) (ay : ℝ) : ℝ :=
  2 * st.SEq_1 * st.SEq_2 + 2 * st.SEq_3 * st.SEq_4 - ay

/-- Objective-function element `f_3` (MARGfilter.cpp line 129). -/
def marg_f3 (st : MARG) (az : ℝ) : ℝ :=
  1 - 2 * st.SEq_2 * st.SEq_2 - 2 * st.SEq_3 * st.SEq_3 - az

/-- Objective-function element `f_4` (MARGfilter.cpp line 130), with
`twob_x = 2*b_x`, `twob_z = 2*b_z` expanded. -/
def marg_f4 (st : MARG) (mx : ℝ) : ℝ :=
  2 * st.b_x * (0.5 - st.SEq_3 * st.SEq_3 - st.SEq_4 * st.SEq_4) +
    2 * st.b_z * (st.SEq_2 * st.SEq_4 - st.SEq_1 * st.SEq_3) - mx

/-- Objective-function element `f_5` (MARGfilter.cpp line 131). -/
def marg_f5 (st : MARG) (my : ℝ) : ℝ :=
  2 * st.b_x * (st.SEq_2 * st.SEq_3 - st.SEq_1 * st.SEq_4) +
    2 * st.b_z * (st.SEq_1 * st.SEq_2 + st.SEq_3 * st.SEq_4) - my

/-- Objective-function element `f_6` (MARGfilter.cpp line 132). -/
def marg_f6 (st : MARG) (mz : ℝ) : ℝ :=
  2 * st.b_x * (st.SEq_1 * st.SEq_3 + st.SEq_2 * st.SEq_4) +
    2 * st.b_z * (0.5 - st.SEq_2 * st.SEq_2 - st.SEq_3 * st.SEq_3) - mz

/-- Gradient component `SEqHatDot_1 = J_14or21*f_2 - J_11or24*f_1 - J_41*f_4
- J_51*f_5 + J_61*f_6` (MARGfilter.cpp line 152), Jacobian entries from
lines 133-150 expanded. -/
def SEqHatDot_1 (st : MARG) (ax ay az mx my mz : ℝ) : ℝ :=
  (2 * st.SEq_2) * marg_f2 st ay - (2 * st.SEq_3) * marg_f1 st ax -
    (2 * st.b_z * st.SEq_3) * marg_f4 st mx -
    (2 * st.b_x * st.SEq_4 - 2 * st.b_z * st.SEq_2) * marg_f5 st my +
    (2 * st.b_x * st.SEq_3) * marg_f6 st mz

/-- Gradient component `SEqHatDot_2` (MARGfilter.cpp line 153). -/
def SEqHatDot_2 (st : MARG) (ax ay az mx my mz : ℝ) : ℝ :=
  (2 * st.SEq_4) * marg_f1 st ax + (2 * st.SEq_1) * marg_f2 st ay -
    (2 * (2 * st.SEq_2)) * marg_f3 st az +
    (2 * st.b_z * st.SEq_4) * marg_f4 st mx +
    (2 * st.b_x * st.SEq_3 + 2 * st.b_z * st.SEq_1) * marg_f5 st my +
    (2 * st.b_x * st.SEq_4 - 2 * (2 * st.b_z * st.SEq_2)) * marg_f6 st mz

/-- Gradient component `SEqHatDot_3` (MARGfilter.cpp line 154). -/
def SEqHatDot_3 (st : MARG) (ax ay az mx my mz : ℝ) : ℝ :=
  (2 * st.SEq_4) * marg_f2 st ay - (2 * (2 * st.SEq_3)) * marg_f3 st az -
    (2 * st.SEq_1) * marg_f1 st ax -
    (2 * (2 * st.b_x * st.SEq_3) + 2 * st.b_z * st.SEq_1) * marg_f4 st mx +
    (2 * st.b_x * st.SEq_2 + 2 * st.b_z * st.SEq_4) * marg_f5 st my +
    (2 * st.b_x * st.SEq_1 - 2 * (2 * st.b_z * st.SEq_3)) * marg_f6 st mz

/-- Gradient component `SEqHatDot_4` (MARGfilter.cpp line 155). -/
def SEqHatDot_4 (st : MARG) (ax ay az mx my mz : ℝ) : ℝ :=
  (2 * st.SEq_2) * marg_f1 st ax + (2 * st.SEq_3) * marg_f2 st ay -
    (2 * (2 * st.b_x * st.SEq_4) - 2 * st.b_z * st.SEq_2) * marg_f4 st mx -
    (2 * st.b_x * st.SEq_1 - 2 * st.b_z * st.SEq_3) * marg_f5 st my +
    (2 * st.b_x * st.SEq_2) * marg_f6 st mz

/-- Unnormalised gradient component 1 at the normalised sensor inputs. -/
noncomputable def gradRaw_1 (st : MARG) (u : MARGIn) : ℝ :=
  SEqHatDot_1 st (aHat_x u) (aHat_y u) (aHat_z u) (mHat_x u) (mHat_y u) (mHat_z u)

/-- Unnormalised gradient component 2 at the normalised sensor inputs. -/
noncomputable def gradRaw_2 (st : MARG) (u : MARGIn) : ℝ :=
  SEqHatDot_2 st (aHat_x u) (aHat_y u) (aHat_z u) (mHat_x u) (mHat_y u) (mHat_z u)

/-- Unnormalised gradient component 3 at the normalised sensor inputs. -/
noncomputable def gradRaw_3 (st : MARG) (u : MARGIn) : ℝ :=
  SEqHatDot_3 st (aHat_x u) (aHat_y u) (aHat_z u) (mHat_x u) (mHat_y u) (mHat_z u)

/-- Unnormalised gradient component 4 at the normalised sensor inputs. -/
noncomputable def gradRaw_4 (st : MARG) (u : MARGIn) : ℝ :=
  SEqHatDot_4 st (aHat_x u) (aHat_y u) (aHat_z u) (mHat_x u) (mHat_y u) (mHat_z u)

/-- Norm of the gradient (MARGfilter.cpp line 157). -/
noncomputable def gradNorm (st : MARG) (u : MARGIn) : ℝ :=
  norm4 (gradRaw_1 st u) (gradRaw_2 st u) (gradRaw_3 st u) (gradRaw_4 st u)

/-- Normalised gradient component 1 (MARGfilter.cpp line 158). -/
noncomputable def gradHat_1 (st : MARG) (u : MARGIn) : ℝ := gradRaw_1 st u / gradNorm st u

/-- Normalised gradient component 2 (MARGfilter.cpp line 159). -/
noncomputable def gradHat_2 (st : MARG) (u : MARGIn) : ℝ := gradRaw_2 st u / gradNorm st u

/-- Normalised gradient component 3 (MARGfilter.cpp line 160). -/
noncomputable def gradHat_3 (st : MARG) (u : MARGIn) : ℝ := gradRaw_3 st u / gradNorm st u

/-- Normalised gradient component 4 (MARGfilter.cpp line 161). -/
noncomputable def gradHat_4 (st : MARG) (u : MARGIn) : ℝ := gradRaw_4 st u / gradNorm st u

/-- Angular error estimate `w_err_x` (MARGfilter.cpp line 163),
`twoSEq_i = 2*SEq_i` expanded. -/
noncomputable def wErrHat_x (st : MARG) (u : MARGIn) : ℝ :=
  2 * st.SEq_1 * gradHat_2 st u - 2 * st.SEq_2 * gradHat_1 st u -
    2 * st.SEq_3 * gradHat_4 st u + 2 * st.SEq_4 * gradHat_3 st u

/-- Angular error estimate `w_err_y` (MARGfilter.cpp line 164). -/
noncomputable def wErrHat_y (st : MARG) (u : MARGIn) : ℝ :=
  2 * st.SEq_1 * gradHat_3 st u + 2 * st.SEq_2 * gradHat_4 st u -
    2 * st.SEq_3 * gradHat_1 st u - 2 * st.SEq_4 * gradHat_2 st u

/-- Angular error estimate `w_err_z` (MARGfilter.cpp line 165). -/
noncomputable def wErrHat_z (st : MARG) (u : MARGIn) : ℝ :=
  2 * st.SEq_1 * gradHat_4 st u - 2 * st.SEq_2 * gradHat_3 st u +
    2 * st.SEq_3 * gradHat_2 st u - 2 * st.SEq_4 * gradHat_1 st u

/-- Updated gyro bias `w_bx += w_err_x * deltat * zeta`
(MARGfilter.cpp line 167). -/
noncomputable def wbNew_x (st : MARG) (u : MARGIn) : ℝ :=
  st.w_bx + wErrHat_x st u * st.deltat * st.zeta

/-- Updated gyro bias `w_by` (MARGfilter.cpp line 168). -/
noncomputable def wbNew_y (st : MARG) (u : MARGIn) : ℝ :=
  st.w_by + wErrHat_y st u * st.deltat * st.zeta

/-- Updated gyro bias `w_bz` (MARGfilter.cpp line 169). -/
noncomputable def wbNew_z (st : MARG) (u : MARGIn) : ℝ :=
  st.w_bz + wErrHat_z st u * st.deltat * st.zeta

/-- Quaternion rate from gyroscope element 1 (MARGfilter.cpp line 174),
`halfSEq_i = 0.5*SEq_i` expanded; `wx wy wz` are the bias-corrected rates. -/
def SEqDotOmega_1 (st : MARG) (wx wy wz : ℝ) : ℝ :=
  -(0.5 * st.SEq_2) * wx - (0.5 * st.SEq_3) * wy - (0.5 * st.SEq_4) * wz

/-- Quaternion rate element 2 (MARGfilter.cpp line 175). -/
def SEqDotOmega_2 (st : MARG) (wx wy wz : ℝ) : ℝ :=
  (0.5 * st.SEq_1) * wx + (0.5 * st.SEq_3) * wz - (0.5 * st.SEq_4) * wy

/-- Quaternion rate element 3 (MARGfilter.cpp line 176). -/
def SEqDotOmega_3 (st : MARG) (wx wy wz : ℝ) : ℝ :=
  (0.5 * st.SEq_1) * wy - (0.5 * st.SEq_2) * wz + (0.5 * st.SEq_4) * wx

/-- Quaternion rate element 4 (MARGfilter.cpp line 177). -/
def SEqDotOmega_4 (st : MARG) (wx wy wz : ℝ) : ℝ :=
  (0.5 * st.SEq_1) * wz + (0.5 * st.SEq_2) * wy - (0.5 * st.SEq_3) * wx

/-- Integrated, not yet renormalised quaternion component 1
(MARGfilter.cpp lines 170-172 and 179): the updated bias is subtracted from
the raw rates, the quaternion rate is blended with the normalised gradient
weighted by `beta` and integrated over `deltat`. -/
noncomputable def SEqPre_1 (st : MARG) (u : MARGIn) : ℝ :=
  st.SEq_1 +
    (SEqDotOmega_1 st (u.w_x - wbNew_x st u) (u.w_y - wbNew_y st u) (u.w_z - wbNew_z st u) -
      st.beta * gradHat_1 st u) * st.deltat

/-- Integrated quaternion component 2 (MARGfilter.cpp line 180). -/
noncomputable def SEqPre_2 (st : MARG) (u : MARGIn) : ℝ :=
  st.SEq_2 +
    (SEqDotOmega_2 st (u.w_x - wbNew_x st u) (u.w_y - wbNew_y st u) (u.w_z - wbNew_z st u) -
      st.beta * gradHat_2 st u) * st.deltat

/-- Integrated quaternion component 3 (MARGfilter.cpp line 181). -/
noncomputable def SEqPre_3 (st : MARG) (u : MARGIn) : ℝ :=
  st.SEq_3 +
    (SEqDotOmega_3 st (u.w_x - wbNew_x st u) (u.w_y - wbNew_y st u) (u.w_z - wbNew_z st u) -
      st.beta * gradHat_3 st u) * st.deltat

/-- Integrated quaternion component 4 (MARGfilter.cpp line 182). -/
noncomputable def SEqPre_4 (st : MARG) (u : MARGIn) : ℝ :=
  st.SEq_4 +
    (SEqDotOmega_4 st (u.w_x - wbNew_x st u) (u.w_y - wbNew_y st u) (u.w_z - wbNew_z st u) -
      st.beta * gradHat_4 st u) * st.deltat

/-- Norm of the integrated quaternion (MARGfilter.cpp line 184). -/
noncomputable def SEqPreNorm (st : MARG) (u : MARGIn) : ℝ :=
  norm4 (SEqPre_1 st u) (SEqPre_2 st u) (SEqPre_3 st u) (SEqPre_4 st u)

/-- Renormalised quaternion component 1 (MARGfilter.cpp line 185). -/
noncomputable def SEqNew_1 (st : MARG) (u : MARGIn) : ℝ := SEqPre_1 st u / SEqPreNorm st u

/-- Renormalised quaternion component 2 (MARGfilter.cpp line 186). -/
noncomputable def SEqNew_2 (st : MARG) (u : MARGIn) : ℝ := SEqPre_2 st u / SEqPreNorm st u

/-- Renormalised quaternion component 3 (MARGfilter.cpp line 187). -/
noncomputable def SEqNew_3 (st : MARG) (u : MARGIn) : ℝ := SEqPre_3 st u / SEqPreNorm st u

/-- Renormalised quaternion component 4 (MARGfilter.cpp line 188). -/
noncomputable def SEqNew_4 (st : MARG) (u : MARGIn) : ℝ := SEqPre_4 st u / SEqPreNorm st u

/-- Earth-frame flux `h_x` (MARGfilter.cpp line 196).  Note that
`twom_x = 2.0 * m_x` is initialised on line 113, before the magnetometer
measurement is normalised on lines 122-125, so the raw magnetometer values
enter here. -/
noncomputable def hFlux_x (st : MARG) (u : MARGIn) : ℝ :=
  2 * u.m_x * (0.5 - SEqNew_3 st u * SEqNew_3 st u - SEqNew_4 st u * SEqNew_4 st u) +
    2 * u.m_y * (SEqNew_2 st u * SEqNew_3 st u - SEqNew_1 st u * SEqNew_4 st u) +
    2 * u.m_z * (SEqNew_2 st u * SEqNew_4 st u + SEqNew_1 st u * SEqNew_3 st u)

/-- Earth-frame flux `h_y` (MARGfilter.cpp line 197). -/
noncomputable def hFlux_y (st : MARG) (u : MARGIn) : ℝ :=
  2 * u.m_x * (SEqNew_2 st u * SEqNew_3 st u + SEqNew_1 st u * SEqNew_4 st u) +
    2 * u.m_y * (0.5 - SEqNew_2 st u * SEqNew_2 st u - SEqNew_4 st u * SEqNew_4 st u) +
    2 * u.m_z * (SEqNew_3 st u * SEqNew_4 st u - SEqNew_1 st u * SEqNew_2 st u)

/-- Earth-frame flux `h_z` (MARGfilter.cpp line 198). -/
noncomputable def hFlux_z (st : MARG) (u : MARGIn) : ℝ :=
  2 * u.m_x * (SEqNew_2 st u * SEqNew_4 st u - SEqNew_1 st u * SEqNew_3 st u) +
    2 * u.m_y * (SEqNew_3 st u * SEqNew_4 st u + SEqNew_1 st u * SEqNew_2 st u) +
    2 * u.m_z * (0.5 - SEqNew_2 st u * SEqNew_2 st u - SEqNew_3 st u * SEqNew_3 st u)

/-- `MARGfilter::updateFilter` (MARGfilter.cpp lines 77-212).  The four
guards return `none` exactly when the corresponding C++ normalisation step
divides by a zero norm (accelerometer line 117, magnetometer line 122,
gradient line 157, integrated quaternion line 184); in IEEE arithmetic the
resulting NaN contaminates the whole orientation state. -/
noncomputable def updateFilter (st : MARG) (u : MARGIn) : Option MARG :=
  if u.a_x * u.a_x + u.a_y * u.a_y + u.a_z * u.a_z = 0 then none
  else if u.m_x * u.m_x + u.m_y * u.m_y + u.m_z * u.m_z = 0 then none
  else if gradRaw_1 st u * gradRaw_1 st u + gradRaw_2 st u * gradRaw_2 st u +
      gradRaw_3 st u * gradRaw_3 st u + gradRaw_4 st u * gradRaw_4 st u = 0 then none
  else if SEqPre_1 st u * SEqPre_1 st u + SEqPre_2 st u * SEqPre_2 st u +
      SEqPre_3 st u * SEqPre_3 st u + SEqPre_4 st u * SEqPre_4 st u = 0 then none
  else
    some { st with
      SEq_1 := SEqNew_1 st u
      SEq_2 := SEqNew_2 st u
      SEq_3 := SEqNew_3 st u
      SEq_4 := SEqNew_4 st u
      w_bx := wbNew_x st u
      w_by := wbNew_y st u
      w_bz := wbNew_z st u
      b_x := Real.sqrt (hFlux_x st u * hFlux_x st u + hFlux_y st u * hFlux_y st u)
      b_z := hFlux_z st u
      firstUpdate := if st.firstUpdate = 0 then 1 else st.firstUpdate
      AEq_1 := if st.firstUpdate = 0 then SEqNew_1 st u else st.AEq_1
      AEq_2 := if st.firstUpdate = 0 then SEqNew_2 st u else st.AEq_2
      AEq_3 := if st.firstUpdate = 0 then SEqNew_3 st u else st.AEq_3
      AEq_4 := if st.firstUpdate = 0 then SEqNew_4 st u else st.AEq_4 }

/-- Two-argument arctangent as used by the C library `atan2(y, x)`. -/
noncomputable def atan2 (y x : ℝ) : ℝ :=
  if 0 < x then Real.arctan (y / x)
  else if x < 0 then
    (if 0 ≤ y then Real.arctan (y / x) + Real.pi else Real.arctan (y / x) - Real.pi)
  else if 0 < y then Real.pi / 2
  else if y < 0 then -(Real.pi / 2)
  else 0

/-- Component 1 of the quaternion product `conj(SEq) * AEq`
(MARGfilter.cpp lines 222-231, with `ESq_i` substituted). -/
def ASqc_1 (st : MARG) : ℝ :=
  st.SEq_1 * st.AEq_1 - -st.SEq_2 * st.AEq_2 - -st.SEq_3 * st.AEq_3 - -st.SEq_4 * st.AEq_4

/-- Component 2 of the quaternion product `conj(SEq) * AEq`
(MARGfilter.cpp line 229). -/
def ASqc_2 (st : MARG) : ℝ :=
  st.SEq_1 * st.AEq_2 + -st.SEq_2 * st.AEq_1 + -st.SEq_3 * st.AEq_4 - -st.SEq_4 * st.AEq_3

/-- Component 3 of the quaternion product `conj(SEq) * AEq`
(MARGfilter.cpp line 230). -/
def ASqc_3 (st : MARG) : ℝ :=
  st.SEq_1 * st.AEq_3 - -st.SEq_2 * st.AEq_4 + -st.SEq_3 * st.AEq_1 + -st.SEq_4 * st.AEq_2

/-- Component 4 of the quaternion product `conj(SEq) * AEq`
(MARGfilter.cpp line 231). -/
def ASqc_4 (st : MARG) : ℝ :=
  st.SEq_1 * st.AEq_4 + -st.SEq_2 * st.AEq_3 - -st.SEq_3 * st.AEq_2 + -st.SEq_4 * st.AEq_1

/-- Quaternion conjugate. -/
def quatConj (q : ℝ × ℝ × ℝ × ℝ) : ℝ × ℝ × ℝ × ℝ :=
  (q.1, -q.2.1, -q.2.2.1, -q.2.2.2)

/-- Hamilton quaternion product, component order (w, x, y, z). -/
def quatProd (p q : ℝ × ℝ × ℝ × ℝ) : ℝ × ℝ × ℝ × ℝ :=
  (p.1 * q.1 - p.2.1 * q.2.1 - p.2.2.1 * q.2.2.1 - p.2.2.2 * q.2.2.2,
   p.1 * q.2.1 + p.2.1 * q.1 + p.2.2.1 * q.2.2.2 - p.2.2.2 * q.2.2.1,
   p.1 * q.2.2.1 - p.2.1 * q.2.2.2 + p.2.2.1 * q.1 + p.2.2.2 * q.2.1,
   p.1 * q.2.2.2 + p.2.1 * q.2.2.1 - p.2.2.1 * q.2.1 + p.2.2.2 * q.1)

/-- `MARGfilter::computeEuler` (MARGfilter.cpp lines 214-238): conjugates
SEq, multiplies by AEq and writes `phi`, `theta`, `psi` with the formulas
of lines 234-236.  Only the Euler members are written. -/
noncomputable def computeEuler (st : MARG) : MARG :=
  let ESq_1 := st.SEq_1
  let ESq_2 := -st.SEq_2
  let ESq_3 := -st.SEq_3
  let ESq_4 := -st.SEq_4
  let ASq_1 := ESq_1 * st.AEq_1 - ESq_2 * st.AEq_2 - ESq_3 * st.AEq_3 - ESq_4 * st.AEq_4
  let ASq_2 := ESq_1 * st.AEq_2 + ESq_2 * st.AEq_1 + ESq_3 * st.AEq_4 - ESq_4 * st.AEq_3
  let ASq_3 := ESq_1 * st.AEq_3 - ESq_2 * st.AEq_4 + ESq_3 * st.AEq_1 + ESq_4 * st.AEq_2
  let ASq_4 := ESq_1 * st.AEq_4 + ESq_2 * st.AEq_3 - ESq_3 * st.AEq_2 + ESq_4 * st.AEq_1
  { st with
    phi := atan2 (2 * ASq_3 * ASq_4 - 2 * ASq_1 * ASq_2)
      (2 * ASq_1 * ASq_1 + 2 * ASq_4 * ASq_4 - 1)
    theta := Real.arcsin (2 * ASq_2 * ASq_3 - 2 * ASq_1 * ASq_3)
    psi := atan2 (2 * ASq_2 * ASq_3 - 2 * ASq_1 * ASq_4)
      (2 * ASq_1 * ASq_1 + 2 * ASq_2 * ASq_2 - 1) }

/-- `MARGfilter::getRoll` (MARGfilter.cpp lines 240-244). -/
def getRoll (st : MARG) : ℝ := st.phi

/-- `MARGfilter::getPitch` (MARGfilter.cpp lines 246-250). -/
def getPitch (st : MARG) : ℝ := st.theta

/-- `MARGfilter::getYaw` (MARGfilter.cpp lines 252-256). -/
def getYaw (st : MARG) : ℝ := st.psi

/-- Modelled from the spec: the standard quaternion-to-Euler pitch formula
(Tait-Bryan aerospace ZYX sequence), `theta = asin(2*(q1*q3 - q2*q4))` for a
quaternion `(q1, q2, q3, q4)` with scalar part `q1`. -/
noncomputable def standardTheta (q1 q2 q3 q4 : ℝ) : ℝ :=
  Real.arcsin (2 * (q1 * q3 - q2 * q4))

/-- Oversampling factor `SAMPLES` of the main program (HMC5843.cpp
embedded main, line 901). -/
def SAMPLES : ℕ := 4

/-- Calibration sample count `CALIBRATION_SAMPLES` (embedded main,
line 904). -/
def CALIBRATION_SAMPLES : ℕ := 128

/-- Accumulator state of one rate sampler: the three running sums
(`a_xAccumulator`, ...) and the sample counter (`accelerometerSamples`,
...), embedded main lines 959-990. -/
structure Accum where
  xAcc : ℚ
  yAcc : ℚ
  zAcc : ℚ
  samples : ℕ
  deriving DecidableEq, Repr

/-- The accumulator startup state: sums zero, counter zero. -/
def accumInit : Accum := ⟨0, 0, 0, 0⟩

/-- One periodic sampler tick, the shape shared by `sampleAccelerometer`
(embedded main lines 1034-1061), `sampleGyroscope` (1139-1165) and
`sampleMagnetometer` (1205-1229): if the counter has reached `SAMPLES` the
tick averages the sums, removes the bias, applies the gain, resets the
accumulator and writes the averaged-reading slot (modelled as the returned
`some` value); otherwise it adds the next raw sample to the sums and
increments the counter.  On the emitting branch the sensor is not read, so
the `raw` argument is unused there. -/
def sampleTick (biasX biasY biasZ gain : ℚ) (st : Accum) (raw : ℤ × ℤ × ℤ) :
    Accum × Option (ℚ × ℚ × ℚ) :=
  if st.samples = SAMPLES then
    (accumInit,
      some ((st.xAcc / (SAMPLES : ℚ) - biasX) * gain,
            (st.yAcc / (SAMPLES : ℚ) - biasY) * gain,
            (st.zAcc / (SAMPLES : ℚ) - biasZ) * gain))
  else
    (⟨st.xAcc + (raw.1 : ℚ), st.yAcc + (raw.2.1 : ℚ), st.zAcc + (raw.2.2 : ℚ),
      st.samples + 1⟩, none)

/-- Run a sequence of sampler ticks, returning the final accumulator state
and the slot value written (if any) by each tick. -/
def feedSamples (biasX biasY biasZ gain : ℚ) :
    Accum → List (ℤ × ℤ × ℤ) → Accum × List (Option (ℚ × ℚ × ℚ))
  | st, [] => (st, [])
  | st, r :: rs =>
    let step := sampleTick biasX biasY biasZ gain st r
    let rest := feedSamples biasX biasY biasZ gain step.1 rs
    (rest.1, step.2 :: rest.2)

/-- `calibrateAccelerometer` (embedded main lines 1063-1096): sums
`CALIBRATION_SAMPLES` raw axis readings, divides each sum by
`CALIBRATION_SAMPLES`, and subtracts the 250-count 1 g offset from the Z
axis. -/
def calibrateAccelerometer (readings : Fin CALIBRATION_SAMPLES → ℤ × ℤ × ℤ) :
    ℚ × ℚ × ℚ :=
  ((∑ i, ((readings i).1 : ℚ)) / (CALIBRATION_SAMPLES : ℚ),
   (∑ i, ((readings i).2.1 : ℚ)) / (CALIBRATION_SAMPLES : ℚ),
   (∑ i, ((readings i).2.2 : ℚ)) / (CALIBRATION_SAMPLES : ℚ) - 250)

/-- `calibrateGyroscope` (embedded main lines 1107-1137): sums
`CALIBRATION_SAMPLES` raw axis readings and divides each sum by
`CALIBRATION_SAMPLES`. -/
def calibrateGyroscope (readings : Fin CALIBRATION_SAMPLES → ℤ × ℤ × ℤ) :
    ℚ × ℚ × ℚ :=
  ((∑ i, ((readings i).1 : ℚ)) / (CALIBRATION_SAMPLES : ℚ),
   (∑ i, ((readings i).2.1 : ℚ)) / (CALIBRATION_SAMPLES : ℚ),
   (∑ i, ((readings i).2.2 : ℚ)) / (CALIBRATION_SAMPLES : ℚ))

/-- `calibrateMagnetometer` (embedded main lines 1174-1203): the loop takes
only 20 readings (2 seconds at 10 Hz, line 1181) but each sum is then
divided by `CALIBRATION_SAMPLES` = 128 (lines 1192-1194), exactly as the
source does. -/
def calibrateMagnetometer (readings : Fin 20 → ℤ × ℤ × ℤ) : ℚ × ℚ × ℚ :=
  ((∑ i, ((readings i).1 : ℚ)) / (CALIBRATION_SAMPLES : ℚ),
   (∑ i, ((readings i).2.1 : ℚ)) / (CALIBRATION_SAMPLES : ℚ),
   (∑ i, ((readings i).2.2 : ℚ)) / (CALIBRATION_SAMPLES : ℚ))

/-- A freshly constructed filter with the example program gains
(`margFilter(FILTER_RATE, 0.3, 0.0)`, embedded main line 928) and zeroed
uninitialised Euler members. -/
noncomputable def stExample : MARG := margInit (1 / 10) (3 / 10) 0 0 0 0

/-- A freshly constructed filter with zero measurement-error and drift
gains, used as a concrete witness state. -/
noncomputable def margLevelState : MARG := margInit (1 / 10) 0 0 0 0 0

/-- A level stationary input: zero rates, accelerometer (0,0,1),
magnetometer (0,0,1). -/
def levelIn : MARGIn := ⟨0, 0, 0, 0, 0, 1, 0, 0, 1⟩

/-- A level stationary input whose magnetometer points along +X:
zero rates, accelerometer (0,0,1), magnetometer (1,0,0).  At the identity
quaternion with `b_x = 1`, `b_z = 0` every objective-function residual
vanishes on this input. -/
def levelXIn : MARGIn := ⟨0, 0, 0, 0, 0, 1, 1, 0, 0⟩

/-- An input whose accelerometer reading is the zero vector. -/
def zeroAccIn : MARGIn := ⟨0, 0, 0, 0, 0, 0, 1, 0, 0⟩

/-- An input whose magnetometer reading is the zero vector. -/
def zeroMagIn : MARGIn := ⟨0, 0, 0, 0, 0, 1, 0, 0, 0⟩

/-- The state `updateFilter` produces from `margLevelState` on `levelIn`. -/
noncomputable def margLevelPost : MARG :=
  { firstUpdate := 1
    AEq_1 := 1, AEq_2 := 0, AEq_3 := 0, AEq_4 := 0
    SEq_1 := 1, SEq_2 := 0, SEq_3 := 0, SEq_4 := 0
    deltat := 1 / 10
    gyroMeasError := 0
    gyroMeasDrift := 0
    b_x := 0, b_z := 1
    w_bx := 0, w_by := 0, w_bz := 0
    beta := 0, zeta := 0
    phi := 0, theta := 0, psi := 0 }

/-- A state whose Euler members hold leftover values 1: phi, theta, psi as
the last `computeEuler` (or the uninitialised memory) left them. -/
noncomputable def stStaleEuler : MARG := margInit (1 / 10) (3 / 10) 0 1 1 1

/-- A state whose relative quaternion `conj(SEq) * AEq` equals
`(1/2, 1/2, 1/2, -1/2)`: SEq is that unit quaternion conjugated, AEq is the
identity reference. -/
noncomputable def stPitch : MARG :=
  { margInit (1 / 10) (3 / 10) 0 0 0 0 with
    SEq_1 := 1 / 2, SEq_2 := -(1 / 2), SEq_3 := -(1 / 2), SEq_4 := 1 / 2 }

/-- On the non-degenerate path `updateFilter` returns exactly the state
assembled from the stage functions. -/
theorem updateFilter_some (st : MARG) (u : MARGIn) (st2 : MARG)
    (h : updateFilter st u = some st2) :
    st2 = { st with
      SEq_1 := SEqNew_1 st u
      SEq_2 := SEqNew_2 st u
      SEq_3 := SEqNew_3 st u
      SEq_4 := SEqNew_4 st u
      w_bx := wbNew_x st u
      w_by := wbNew_y st u
      w_bz := wbNew_z st u
      b_x := Real.sqrt (hFlux_x st u * hFlux_x st u + hFlux_y st u * hFlux_y st u)
      b_z := hFlux_z st u
      firstUpdate := if st.firstUpdate = 0 then 1 else st.firstUpdate
      AEq_1 := if st.firstUpdate = 0 then SEqNew_1 st u else st.AEq_1
      AEq_2 := if st.firstUpdate = 0 then SEqNew_2 st u else st.AEq_2
      AEq_3 := if st.firstUpdate = 0 then SEqNew_3 st u else st.AEq_3
      AEq_4 := if st.firstUpdate = 0 then SEqNew_4 st u else st.AEq_4 } := by
  by_cases hA : u.a_x * u.a_x + u.a_y * u.a_y + u.a_z * u.a_z = 0
  · rw [updateFilter, if_pos hA] at h; exact Option.noConfusion h
  by_cases hM : u.m_x * u.m_x + u.m_y * u.m_y + u.m_z * u.m_z = 0
  · rw [updateFilter, if_neg hA, if_pos hM] at h; exact Option.noConfusion h
  by_cases hG : gradRaw_1 st u * gradRaw_1 st u + gradRaw_2 st u * gradRaw_2 st u +
      gradRaw_3 st u * gradRaw_3 st u + gradRaw_4 st u * gradRaw_4 st u = 0
  · rw [updateFilter, if_neg hA, if_neg hM, if_pos hG] at h; exact Option.noConfusion h
  by_cases hQ : SEqPre_1 st u * SEqPre_1 st u + SEqPre_2 st u * SEqPre_2 st u +
      SEqPre_3 st u * SEqPre_3 st u + SEqPre_4 st u * SEqPre_4 st u = 0
  · rw [updateFilter, if_neg hA, if_neg hM, if_neg hG, if_pos hQ] at h
    exact Option.noConfusion h
  rw [updateFilter, if_neg hA, if_neg hM, if_neg hG, if_neg hQ] at h
  injection h with hEq
  exact hEq.symm

/-- Claim C8: `reset()` establishes `firstUpdate = 0`, `SEq = (1,0,0,0)`,
`AEq = (1,0,0,0)`, zero gyro bias, `b_x = 1`, `b_z = 0`, and is
idempotent. -/
theorem marg_c8 (st : MARG) :
    (margReset st).firstUpdate = 0 ∧
    (margReset st).SEq_1 = 1 ∧ (margReset st).SEq_2 = 0 ∧
    (margReset st).SEq_3 = 0 ∧ (margReset st).SEq_4 = 0 ∧
    (margReset st).AEq_1 = 1 ∧ (margReset st).AEq_2 = 0 ∧
    (margReset st).AEq_3 = 0 ∧ (margReset st).AEq_4 = 0 ∧
    (margReset st).w_bx = 0 ∧ (margReset st).w_by = 0 ∧ (margReset st).w_bz = 0 ∧
    (margReset st).b_x = 1 ∧ (margReset st).b_z = 0 ∧
    margReset (margReset st) = margReset st :=
  ⟨rfl, rfl, rfl, rfl, rfl, rfl, rfl, rfl, rfl, rfl, rfl, rfl, rfl, rfl, rfl⟩

/-- Claim C4, counterexample: feeding exactly 4 raw samples to the
accumulator (bias 0, gain 1, four samples (1,1,1)) yields no averaged
reading at all, not the single reading `((4*1)/4 - 0) * 1 = (1,1,1)` the
claim asserts. -/
theorem marg_c4_cex :
    (feedSamples 0 0 0 1 accumInit
        [(1, 1, 1), (1, 1, 1), (1, 1, 1), (1, 1, 1)]).2.filterMap id = [] ∧
    ([] : List (ℚ × ℚ × ℚ)) ≠ [(1, 1, 1)] := by
  refine ⟨rfl, by simp⟩

/-- Claim C4, amended: from a fresh accumulator the first 4 ticks feed the 4
raw samples into the running sums and write no averaged reading; the 5th
tick (which reads no new sample, so `r5` is arbitrary and unused) emits
exactly one reading equal to `((sum of the 4 samples)/4 - bias) * gain` and
resets the sums and count to zero; feeding only 3 samples yields no
reading. -/
theorem marg_c4_amended (biasX biasY biasZ gain : ℚ) (r1 r2 r3 r4 r5 : ℤ × ℤ × ℤ) :
    feedSamples biasX biasY biasZ gain accumInit [r1, r2, r3, r4, r5] =
      (accumInit,
        [none, none, none, none,
          some ((((r1.1 : ℚ) + r2.1 + r3.1 + r4.1) / 4 - biasX) * gain,
                (((r1.2.1 : ℚ) + r2.2.1 + r3.2.1 + r4.2.1) / 4 - biasY) * gain,
                (((r1.2.2 : ℚ) + r2.2.2 + r3.2.2 + r4.2.2) / 4 - biasZ) * gain)]) ∧
    (feedSamples biasX biasY biasZ gain accumInit [r1, r2, r3]).2 =
      [none, none, none] := by
  constructor
  · simp [feedSamples, sampleTick, accumInit, SAMPLES]
  · simp [feedSamples, sampleTick, accumInit, SAMPLES]

/-- Claim C5: the magnetometer calibration takes 20 readings but divides the
sums by `CALIBRATION_SAMPLES` = 128, so on 20 constant readings of 128
counts per axis it produces bias 20 instead of the arithmetic mean 128. -/
theorem marg_c5_bug :
    calibrateMagnetometer (fun _ => (128, 128, 128)) = (20, 20, 20) ∧
    (∑ _i : Fin 20, ((128 : ℤ) : ℚ)) / 20 = 128 ∧ ((20 : ℚ) ≠ 128) := by
  refine ⟨?_, ?_, by norm_num⟩
  · simp [calibrateMagnetometer, CALIBRATION_SAMPLES, Finset.sum_const, Finset.card_univ]
  · simp [Finset.sum_const, Finset.card_univ]

/-- Claim C7, counterexample: `reset()` does not write the Euler members, so
on a state whose stored angles are 1 the getters still return 1 after
`reset()`, not (0,0,0). -/
theorem marg_c7_cex :
    ¬ (getRoll (margReset stStaleEuler) = 0 ∧ getPitch (margReset stStaleEuler) = 0 ∧
       getYaw (margReset stStaleEuler) = 0) := by
  intro h
  have h1 : (1 : ℝ) = 0 := h.1
  norm_num at h1

/-- Claim C7, amended: `reset()` followed by `computeEuler()` (and no
`updateFilter`) makes `getRoll`, `getPitch`, `getYaw` return (0, 0, 0). -/
theorem marg_c7_amended (st : MARG) :
    getRoll (computeEuler (margReset st)) = 0 ∧
    getPitch (computeEuler (margReset st)) = 0 ∧
    getYaw (computeEuler (margReset st)) = 0 := by
  refine ⟨?_, ?_, ?_⟩ <;>
    norm_num [getRoll, getPitch, getYaw, computeEuler, margReset, atan2,
      Real.arctan_zero, Real.arcsin_zero]

/-- Claim C9, amended: `computeEuler` conjugates SEq, multiplies the
conjugate with AEq, and writes `phi`, `theta`, `psi` using the atan2/asin
combinations exactly as written in the source; the pitch (and yaw) formulas
are not the standard quaternion-to-Euler formulas (the asin argument
`2*ASq_2*ASq_3 - 2*ASq_1*ASq_3` reuses the yaw residual term).  All other
OrientationState members are left unchanged. -/
theorem marg_c9_amended (st : MARG) :
    (computeEuler st).SEq_1 = st.SEq_1 ∧ (computeEuler st).SEq_2 = st.SEq_2 ∧
    (computeEuler st).SEq_3 = st.SEq_3 ∧ (computeEuler st).SEq_4 = st.SEq_4 ∧
    (computeEuler st).AEq_1 = st.AEq_1 ∧ (computeEuler st).AEq_2 = st.AEq_2 ∧
    (computeEuler st).AEq_3 = st.AEq_3 ∧ (computeEuler st).AEq_4 = st.AEq_4 ∧
    (computeEuler st).w_bx = st.w_bx ∧ (computeEuler st).w_by = st.w_by ∧
    (computeEuler st).w_bz = st.w_bz ∧ (computeEuler st).b_x = st.b_x ∧
    (computeEuler st).b_z = st.b_z ∧ (computeEuler st).firstUpdate = st.firstUpdate ∧
    (ASqc_1 st, ASqc_2 st, ASqc_3 st, ASqc_4 st) =
      quatProd (quatConj (st.SEq_1, st.SEq_2, st.SEq_3, st.SEq_4))
        (st.AEq_1, st.AEq_2, st.AEq_3, st.AEq_4) ∧
    (computeEuler st).phi =
      atan2 (2 * ASqc_3 st * ASqc_4 st - 2 * ASqc_1 st * ASqc_2 st)
        (2 * ASqc_1 st * ASqc_1 st + 2 * ASqc_4 st * ASqc_4 st - 1) ∧
    (computeEuler st).theta =
      Real.arcsin (2 * ASqc_2 st * ASqc_3 st - 2 * ASqc_1 st * ASqc_3 st) ∧
    (computeEuler st).psi =
      atan2 (2 * ASqc_2 st * ASqc_3 st - 2 * ASqc_1 st * ASqc_4 st)
        (2 * ASqc_1 st * ASqc_1 st + 2 * ASqc_2 st * ASqc_2 st - 1) := by
  refine ⟨rfl, rfl, rfl, rfl, rfl, rfl, rfl, rfl, rfl, rfl, rfl, rfl, rfl, rfl,
    ?_, rfl, rfl, rfl⟩
  simp [ASqc_1, ASqc_2, ASqc_3, ASqc_4, quatProd, quatConj]

/-- Claim C9, counterexample: on a state whose relative quaternion
`conj(SEq) * AEq` is `(1/2, 1/2, 1/2, -1/2)`, the source pitch formula gives
`asin(0) = 0` while the standard quaternion-to-Euler pitch of that same
quaternion is `asin(1) = pi/2`, so `computeEuler` does not extract pitch via
the standard formula. -/
theorem marg_c9_cex :
    (computeEuler stPitch).theta ≠
      standardTheta (ASqc_1 stPitch) (ASqc_2 stPitch) (ASqc_3 stPitch) (ASqc_4 stPitch) := by
  have h1 : (computeEuler stPitch).theta = 0 := by
    norm_num [computeEuler, stPitch, margInit, Real.arcsin_zero]
  have h2 : standardTheta (ASqc_1 stPitch) (ASqc_2 stPitch) (ASqc_3 stPitch)
      (ASqc_4 stPitch) = Real.pi / 2 := by
    norm_num [standardTheta, ASqc_1, ASqc_2, ASqc_3, ASqc_4, stPitch, margInit,
      Real.arcsin_one]
  rw [h1, h2]
  have hp := Real.pi_pos
  intro hc
  rw [eq_comm] at hc
  have : Real.pi / 2 ≠ 0 := by positivity
  exact this hc

/-- Claim C6: on the first `updateFilter` call after construction or reset
(`firstUpdate = 0`), the updated quaternion SEq is copied into AEq at the
end of the update and `firstUpdate` becomes 1; on every later call AEq and
`firstUpdate` are left unchanged. -/
theorem marg_c6 (st : MARG) (u : MARGIn) (st2 : MARG)
    (h : updateFilter st u = some st2) :
    (st.firstUpdate = 0 →
      st2.AEq_1 = st2.SEq_1 ∧ st2.AEq_2 = st2.SEq_2 ∧ st2.AEq_3 = st2.SEq_3 ∧
      st2.AEq_4 = st2.SEq_4 ∧ st2.firstUpdate = 1) ∧
    (st.firstUpdate ≠ 0 →
      st2.AEq_1 = st.AEq_1 ∧ st2.AEq_2 = st.AEq_2 ∧ st2.AEq_3 = st.AEq_3 ∧
      st2.AEq_4 = st.AEq_4 ∧ st2.firstUpdate = st.firstUpdate) := by
  have h2 := updateFilter_some st u st2 h
  subst h2
  constructor
  · intro h0; simp [h0]
  · intro h0; simp [h0]

/-- Claim C3: every `updateFilter` call increments the persistent gyro-bias
estimate by the angular error estimate times `deltat` times `zeta`, and the
resulting updated bias is subtracted from the raw gyro rates before those
rates enter the quaternion rate that is integrated (with the `beta`-weighted
gradient correction) and renormalised into SEq. -/
theorem marg_c3 (st : MARG) (u : MARGIn) (st2 : MARG)
    (h : updateFilter st u = some st2) :
    st2.w_bx = st.w_bx + wErrHat_x st u * st.deltat * st.zeta ∧
    st2.w_by = st.w_by + wErrHat_y st u * st.deltat * st.zeta ∧
    st2.w_bz = st.w_bz + wErrHat_z st u * st.deltat * st.zeta ∧
    st2.SEq_1 = (st.SEq_1 + (SEqDotOmega_1 st (u.w_x - st2.w_bx) (u.w_y - st2.w_by)
        (u.w_z - st2.w_bz) - st.beta * gradHat_1 st u) * st.deltat) /
      norm4 (SEqPre_1 st u) (SEqPre_2 st u) (SEqPre_3 st u) (SEqPre_4 st u) ∧
    st2.SEq_2 = (st.SEq_2 + (SEqDotOmega_2 st (u.w_x - st2.w_bx) (u.w_y - st2.w_by)
        (u.w_z - st2.w_bz) - st.beta * gradHat_2 st u) * st.deltat) /
      norm4 (SEqPre_1 st u) (SEqPre_2 st u) (SEqPre_3 st u) (SEqPre_4 st u) ∧
    st2.SEq_3 = (st.SEq_3 + (SEqDotOmega_3 st (u.w_x - st2.w_bx) (u.w_y - st2.w_by)
        (u.w_z - st2.w_bz) - st.beta * gradHat_3 st u) * st.deltat) /
      norm4 (SEqPre_1 st u) (SEqPre_2 st u) (SEqPre_3 st u) (SEqPre_4 st u) ∧
    st2.SEq_4 = (st.SEq_4 + (SEqDotOmega_4 st (u.w_x - st2.w_bx) (u.w_y - st2.w_by)
        (u.w_z - st2.w_bz) - st.beta * gradHat_4 st u) * st.deltat) /
      norm4 (SEqPre_1 st u) (SEqPre_2 st u) (SEqPre_3 st u) (SEqPre_4 st u) := by
  have h2 := updateFilter_some st u st2 h
  subst h2
  exact ⟨rfl, rfl, rfl, rfl, rfl, rfl, rfl⟩

/-- Claim C10: neither the constructor nor `reset()` writes the Euler
members `phi`, `theta`, `psi` (the constructor leaves whatever
uninitialised values were there, modelled by the arbitrary `p0 t0 s0`);
`updateFilter` does not write them either, and the getters read exactly the
stored members, so after `reset()` they still return the pre-reset
angles. -/
theorem marg_c10 (rate e d p0 t0 s0 : ℝ) (st stu : MARG) (u : MARGIn) (stu2 : MARG)
    (h : updateFilter stu u = some stu2) :
    (margInit rate e d p0 t0 s0).phi = p0 ∧ (margInit rate e d p0 t0 s0).theta = t0 ∧
    (margInit rate e d p0 t0 s0).psi = s0 ∧
    (margReset st).phi = st.phi ∧ (margReset st).theta = st.theta ∧
    (margReset st).psi = st.psi ∧
    stu2.phi = stu.phi ∧ stu2.theta = stu.theta ∧ stu2.psi = stu.psi ∧
    getRoll (margReset st) = getRoll st ∧ getPitch (margReset st) = getPitch st ∧
    getYaw (margReset st) = getYaw st := by
  have h2 := updateFilter_some stu u stu2 h
  subst h2
  exact ⟨rfl, rfl, rfl, rfl, rfl, rfl, rfl, rfl, rfl, rfl, rfl, rfl⟩

/-- Normalised accelerometer of the level input. -/
theorem level_aHat :
    aHat_x levelIn = 0 ∧ aHat_y levelIn = 0 ∧ aHat_z levelIn = 1 := by
  refine ⟨?_, ?_, ?_⟩ <;>
    norm_num [aHat_x, aHat_y, aHat_z, norm3, levelIn, Real.sqrt_one]

/-- Normalised magnetometer of the level input. -/
theorem level_mHat :
    mHat_x levelIn = 0 ∧ mHat_y levelIn = 0 ∧ mHat_z levelIn = 1 := by
  refine ⟨?_, ?_, ?_⟩ <;>
    norm_num [mHat_x, mHat_y, mHat_z, norm3, levelIn, Real.sqrt_one]

/-- Raw gradient of the fresh zero-gain filter on the level input. -/
theorem level_gradRaw :
    gradRaw_1 margLevelState levelIn = 0 ∧ gradRaw_2 margLevelState levelIn = 0 ∧
    gradRaw_3 margLevelState levelIn = -2 ∧ gradRaw_4 margLevelState levelIn = 0 := by
  have ha := level_aHat
  have hm := level_mHat
  refine ⟨?_, ?_, ?_, ?_⟩ <;>
    norm_num [gradRaw_1, gradRaw_2, gradRaw_3, gradRaw_4, SEqHatDot_1, SEqHatDot_2,
      SEqHatDot_3, SEqHatDot_4, marg_f1, marg_f2, marg_f3, marg_f4, marg_f5, marg_f6,
      ha.1, ha.2.1, ha.2.2, hm.1, hm.2.1, hm.2.2, margLevelState, margInit]

/-- Gradient norm of the fresh zero-gain filter on the level input. -/
theorem level_gradNorm : gradNorm margLevelState levelIn = 2 := by
  have h := level_gradRaw
  rw [gradNorm, h.1, h.2.1, h.2.2.1, h.2.2.2, norm4]
  have h4 : (0 : ℝ) * 0 + 0 * 0 + -2 * -2 + 0 * 0 = 2 ^ 2 := by norm_num
  rw [h4, Real.sqrt_sq (by norm_num : (0 : ℝ) ≤ 2)]

/-- Normalised gradient of the fresh zero-gain filter on the level input. -/
theorem level_gradHat :
    gradHat_1 margLevelState levelIn = 0 ∧ gradHat_2 margLevelState levelIn = 0 ∧
    gradHat_3 margLevelState levelIn = -1 ∧ gradHat_4 margLevelState levelIn = 0 := by
  have h := level_gradRaw
  refine ⟨?_, ?_, ?_, ?_⟩ <;>
    norm_num [gradHat_1, gradHat_2, gradHat_3, gradHat_4, h.1, h.2.1, h.2.2.1, h.2.2.2,
      level_gradNorm]

/-- Field values of the level input. -/
theorem levelIn_fields :
    levelIn.w_x = 0 ∧ levelIn.w_y = 0 ∧ levelIn.w_z = 0 ∧
    levelIn.m_x = 0 ∧ levelIn.m_y = 0 ∧ levelIn.m_z = 1 :=
  ⟨rfl, rfl, rfl, rfl, rfl, rfl⟩

/-- Field values of the fresh zero-gain filter state. -/
theorem level_state_fields :
    margLevelState.SEq_1 = 1 ∧ margLevelState.SEq_2 = 0 ∧ margLevelState.SEq_3 = 0 ∧
    margLevelState.SEq_4 = 0 ∧ margLevelState.b_x = 1 ∧ margLevelState.b_z = 0 ∧
    margLevelState.w_bx = 0 ∧ margLevelState.w_by = 0 ∧ margLevelState.w_bz = 0 ∧
    margLevelState.deltat = 1 / 10 := by
  norm_num [margLevelState, margInit]

/-- Angular error estimate of the fresh zero-gain filter on the level
input. -/
theorem level_wErrHat :
    wErrHat_x margLevelState levelIn = 0 ∧ wErrHat_y margLevelState levelIn = -2 ∧
    wErrHat_z margLevelState levelIn = 0 := by
  have h := level_gradHat
  obtain ⟨s1, s2, s3, s4, _, _, _, _, _, _⟩ := level_state_fields
  refine ⟨?_, ?_, ?_⟩ <;>
    norm_num [wErrHat_x, wErrHat_y, wErrHat_z, h.1, h.2.1, h.2.2.1, h.2.2.2,
      s1, s2, s3, s4]

/-- The zero-gain filter has `zeta = 0`. -/
theorem level_zeta : margLevelState.zeta = 0 := by
  norm_num [margLevelState, margInit]

/-- The zero-gain filter has `beta = 0`. -/
theorem level_beta : margLevelState.beta = 0 := by
  norm_num [margLevelState, margInit]

/-- Updated gyro bias of the fresh zero-gain filter on the level input. -/
theorem level_wb :
    wbNew_x margLevelState levelIn = 0 ∧ wbNew_y margLevelState levelIn = 0 ∧
    wbNew_z margLevelState levelIn = 0 := by
  have h := level_wErrHat
  obtain ⟨_, _, _, _, _, _, w1, w2, w3, _⟩ := level_state_fields
  refine ⟨?_, ?_, ?_⟩ <;>
    norm_num [wbNew_x, wbNew_y, wbNew_z, h.1, h.2.1, h.2.2, level_zeta, w1, w2, w3]

/-- Integrated quaternion of the fresh zero-gain filter on the level
input. -/
theorem level_SEqPre :
    SEqPre_1 margLevelState levelIn = 1 ∧ SEqPre_2 margLevelState levelIn = 0 ∧
    SEqPre_3 margLevelState levelIn = 0 ∧ SEqPre_4 margLevelState levelIn = 0 := by
  have hw := level_wb
  have hu := levelIn_fields
  obtain ⟨s1, s2, s3, s4, _, _, _, _, _, dt⟩ := level_state_fields
  refine ⟨?_, ?_, ?_, ?_⟩ <;>
    norm_num [SEqPre_1, SEqPre_2, SEqPre_3, SEqPre_4, SEqDotOmega_1, SEqDotOmega_2,
      SEqDotOmega_3, SEqDotOmega_4, hw.1, hw.2.1, hw.2.2, level_beta, hu.1, hu.2.1,
      hu.2.2.1, s1, s2, s3, s4, dt]

/-- Renormalised quaternion of the fresh zero-gain filter on the level
input. -/
theorem level_SEqNew :
    SEqNew_1 margLevelState levelIn = 1 ∧ SEqNew_2 margLevelState levelIn = 0 ∧
    SEqNew_3 margLevelState levelIn = 0 ∧ SEqNew_4 margLevelState levelIn = 0 := by
  have hp := level_SEqPre
  have hn : SEqPreNorm margLevelState levelIn = 1 := by
    rw [SEqPreNorm, hp.1, hp.2.1, hp.2.2.1, hp.2.2.2, norm4]
    norm_num [Real.sqrt_one]
  refine ⟨?_, ?_, ?_, ?_⟩ <;>
    norm_num [SEqNew_1, SEqNew_2, SEqNew_3, SEqNew_4, hp.1, hp.2.1, hp.2.2.1, hp.2.2.2, hn]

/-- Earth-frame flux of the fresh zero-gain filter on the level input. -/
theorem level_hFlux :
    hFlux_x margLevelState levelIn = 0 ∧ hFlux_y margLevelState levelIn = 0 ∧
    hFlux_z margLevelState levelIn = 1 := by
  have hs := level_SEqNew
  have hu := levelIn_fields
  refine ⟨?_, ?_, ?_⟩ <;>
    norm_num [hFlux_x, hFlux_y, hFlux_z, hs.1, hs.2.1, hs.2.2.1, hs.2.2.2,
      hu.2.2.2.1, hu.2.2.2.2.1, hu.2.2.2.2.2]

/-- Full evaluation of `updateFilter` on the fresh zero-gain filter and the
level input. -/
theorem updateFilter_level : updateFilter margLevelState levelIn = some margLevelPost := by
  have hg := level_gradRaw
  have hp := level_SEqPre
  have hs := level_SEqNew
  have hw := level_wb
  have hf := level_hFlux
  have hb : Real.sqrt (hFlux_x margLevelState levelIn * hFlux_x margLevelState levelIn +
      hFlux_y margLevelState levelIn * hFlux_y margLevelState levelIn) = 0 := by
    rw [hf.1, hf.2.1]
    norm_num [Real.sqrt_zero]
  rw [updateFilter, hg.1, hg.2.1, hg.2.2.1, hg.2.2.2, hp.1, hp.2.1, hp.2.2.1, hp.2.2.2,
    hs.1, hs.2.1, hs.2.2.1, hs.2.2.2, hw.1, hw.2.1, hw.2.2, hb, hf.2.2]
  norm_num [levelIn, margLevelState, margInit, margLevelPost]

/-- Field values of the level input with the magnetometer along +X. -/
theorem levelXIn_fields :
    levelXIn.a_x = 0 ∧ levelXIn.a_y = 0 ∧ levelXIn.a_z = 1 ∧
    levelXIn.m_x = 1 ∧ levelXIn.m_y = 0 ∧ levelXIn.m_z = 0 :=
  ⟨rfl, rfl, rfl, rfl, rfl, rfl⟩

/-- Normalised accelerometer of the +X-magnetometer level input. -/
theorem levelX_aHat :
    aHat_x levelXIn = 0 ∧ aHat_y levelXIn = 0 ∧ aHat_z levelXIn = 1 := by
  refine ⟨?_, ?_, ?_⟩ <;>
    norm_num [aHat_x, aHat_y, aHat_z, norm3, levelXIn, Real.sqrt_one]

/-- Normalised magnetometer of the +X-magnetometer level input. -/
theorem levelX_mHat :
    mHat_x levelXIn = 1 ∧ mHat_y levelXIn = 0 ∧ mHat_z levelXIn = 0 := by
  refine ⟨?_, ?_, ?_⟩ <;>
    norm_num [mHat_x, mHat_y, mHat_z, norm3, levelXIn, Real.sqrt_one]

/-- Field values of the example-gain filter state. -/
theorem stExample_fields :
    stExample.SEq_1 = 1 ∧ stExample.SEq_2 = 0 ∧ stExample.SEq_3 = 0 ∧
    stExample.SEq_4 = 0 ∧ stExample.b_x = 1 ∧ stExample.b_z = 0 := by
  norm_num [stExample, margInit]

/-- On the +X-magnetometer level input every objective-function residual of
the freshly constructed filter vanishes, so the raw gradient is the zero
vector. -/
theorem levelX_gradRaw :
    gradRaw_1 stExample levelXIn = 0 ∧ gradRaw_2 stExample levelXIn = 0 ∧
    gradRaw_3 stExample levelXIn = 0 ∧ gradRaw_4 stExample levelXIn = 0 := by
  have ha := levelX_aHat
  have hm := levelX_mHat
  obtain ⟨s1, s2, s3, s4, bx, bz⟩ := stExample_fields
  refine ⟨?_, ?_, ?_, ?_⟩ <;>
    norm_num [gradRaw_1, gradRaw_2, gradRaw_3, gradRaw_4, SEqHatDot_1, SEqHatDot_2,
      SEqHatDot_3, SEqHatDot_4, marg_f1, marg_f2, marg_f3, marg_f4, marg_f5, marg_f6,
      ha.1, ha.2.1, ha.2.2, hm.1, hm.2.1, hm.2.2, s1, s2, s3, s4, bx, bz]

/-- Claim C1: the unit-norm invariant fails on the code.  On the freshly
constructed filter (unit SEq, `b_x = 1`, `b_z = 0`) and the valid input
`w = (0,0,0)`, `a = (0,0,1)`, `m = (1,0,0)` (accelerometer and magnetometer
norms are 1, not 0), the gradient is exactly the zero vector, so
MARGfilter.cpp lines 157-161 divide it by norm 0; in IEEE arithmetic the
resulting NaN propagates into SEq, whose norm is then not 1.  The
embedding returns `none` for this NaN-poisoned outcome. -/
theorem marg_c1_bug : updateFilter stExample levelXIn = none := by
  have hg := levelX_gradRaw
  rw [updateFilter, hg.1, hg.2.1, hg.2.2.1, hg.2.2.2]
  norm_num [levelXIn]

/-- Claim C2: a zero-norm accelerometer or magnetometer vector is not
skipped by the code: MARGfilter.cpp lines 117-125 divide by the zero norm
unconditionally, and the resulting NaN propagates into SEq (the embedding
returns `none` for the NaN-poisoned state), contrary to the claimed
skip-and-stay-finite behaviour. -/
theorem marg_c2_bug :
    updateFilter stExample zeroAccIn = none ∧ updateFilter stExample zeroMagIn = none := by
  constructor
  · rw [updateFilter]
    norm_num [zeroAccIn]
  · rw [updateFilter]
    norm_num [zeroMagIn]

/-- Witness for claim C3: the bias/integration decomposition instantiated at
the concrete non-degenerate level update. -/
theorem marg_c3_witness :
    updateFilter margLevelState levelIn = some margLevelPost ∧
    (margLevelPost.w_bx = margLevelState.w_bx +
        wErrHat_x margLevelState levelIn * margLevelState.deltat * margLevelState.zeta ∧
      margLevelPost.w_by = margLevelState.w_by +
        wErrHat_y margLevelState levelIn * margLevelState.deltat * margLevelState.zeta ∧
      margLevelPost.w_bz = margLevelState.w_bz +
        wErrHat_z margLevelState levelIn * margLevelState.deltat * margLevelState.zeta ∧
      margLevelPost.SEq_1 = (margLevelState.SEq_1 + (SEqDotOmega_1 margLevelState
          (levelIn.w_x - margLevelPost.w_bx) (levelIn.w_y - margLevelPost.w_by)
          (levelIn.w_z - margLevelPost.w_bz) -
          margLevelState.beta * gradHat_1 margLevelState levelIn) * margLevelState.deltat) /
        norm4 (SEqPre_1 margLevelState levelIn) (SEqPre_2 margLevelState levelIn)
          (SEqPre_3 margLevelState levelIn) (SEqPre_4 margLevelState levelIn) ∧
      margLevelPost.SEq_2 = (margLevelState.SEq_2 + (SEqDotOmega_2 margLevelState
          (levelIn.w_x - margLevelPost.w_bx) (levelIn.w_y - margLevelPost.w_by)
          (levelIn.w_z - margLevelPost.w_bz) -
          margLevelState.beta * gradHat_2 margLevelState levelIn) * margLevelState.deltat) /
        norm4 (SEqPre_1 margLevelState levelIn) (SEqPre_2 margLevelState levelIn)
          (SEqPre_3 margLevelState levelIn) (SEqPre_4 margLevelState levelIn) ∧
      margLevelPost.SEq_3 = (margLevelState.SEq_3 + (SEqDotOmega_3 margLevelState
          (levelIn.w_x - margLevelPost.w_bx) (levelIn.w_y - margLevelPost.w_by)
          (levelIn.w_z - margLevelPost.w_bz) -
          margLevelState.beta * gradHat_3 margLevelState levelIn) * margLevelState.deltat) /
        norm4 (SEqPre_1 margLevelState levelIn) (SEqPre_2 margLevelState levelIn)
          (SEqPre_3 margLevelState levelIn) (SEqPre_4 margLevelState levelIn) ∧
      margLevelPost.SEq_4 = (margLevelState.SEq_4 + (SEqDotOmega_4 margLevelState
          (levelIn.w_x - margLevelPost.w_bx) (levelIn.w_y - margLevelPost.w_by)
          (levelIn.w_z - margLevelPost.w_bz) -
          margLevelState.beta * gradHat_4 margLevelState levelIn) * margLevelState.deltat) /
        norm4 (SEqPre_1 margLevelState levelIn) (SEqPre_2 margLevelState levelIn)
          (SEqPre_3 margLevelState levelIn) (SEqPre_4 margLevelState levelIn)) :=
  ⟨updateFilter_level, marg_c3 margLevelState levelIn margLevelPost updateFilter_level⟩

/-- Witness for claim C6: the AEq-capture behaviour instantiated at the
concrete first update of a freshly constructed filter. -/
theorem marg_c6_witness :
    updateFilter margLevelState levelIn = some margLevelPost ∧
    ((margLevelState.firstUpdate = 0 →
        margLevelPost.AEq_1 = margLevelPost.SEq_1 ∧
        margLevelPost.AEq_2 = margLevelPost.SEq_2 ∧
        margLevelPost.AEq_3 = margLevelPost.SEq_3 ∧
        margLevelPost.AEq_4 = margLevelPost.SEq_4 ∧
        margLevelPost.firstUpdate = 1) ∧
      (margLevelState.firstUpdate ≠ 0 →
        margLevelPost.AEq_1 = margLevelState.AEq_1 ∧
        margLevelPost.AEq_2 = margLevelState.AEq_2 ∧
        margLevelPost.AEq_3 = margLevelState.AEq_3 ∧
        margLevelPost.AEq_4 = margLevelState.AEq_4 ∧
        margLevelPost.firstUpdate = margLevelState.firstUpdate)) :=
  ⟨updateFilter_level, marg_c6 margLevelState levelIn margLevelPost updateFilter_level⟩

/-- Witness for claim C10: the Euler-member frame conditions instantiated at
concrete states and a concrete non-degenerate update. -/
theorem marg_c10_witness :
    updateFilter margLevelState levelIn = some margLevelPost ∧
    ((margInit (1 / 10) (3 / 10) 0 1 1 1).phi = 1 ∧
      (margInit (1 / 10) (3 / 10) 0 1 1 1).theta = 1 ∧
      (margInit (1 / 10) (3 / 10) 0 1 1 1).psi = 1 ∧
      (margReset stStaleEuler).phi = stStaleEuler.phi ∧
      (margReset stStaleEuler).theta = stStaleEuler.theta ∧
      (margReset stStaleEuler).psi = stStaleEuler.psi ∧
      margLevelPost.phi = margLevelState.phi ∧
      margLevelPost.theta = margLevelState.theta ∧
      margLevelPost.psi = margLevelState.psi ∧
      getRoll (margReset stStaleEuler) = getRoll stStaleEuler ∧
      getPitch (margReset stStaleEuler) = getPitch stStaleEuler ∧
      getYaw (margReset stStaleEuler) = getYaw stStaleEuler) :=
  ⟨updateFilter_level,
    marg_c10 (1 / 10) (3 / 10) 0 1 1 1 stStaleEuler margLevelState levelIn margLevelPost
      updateFilter_level⟩

/-- Whenever `updateFilter` succeeds, the final guard condition is false:
the integrated quaternion has nonzero squared norm. -/
theorem updateFilter_SEqPre_ne (st : MARG) (u : MARGIn) (st2 : MARG)
    (h : updateFilter st u = some st2) :
    SEqPre_1 st u * SEqPre_1 st u + SEqPre_2 st u * SEqPre_2 st u +
      SEqPre_3 st u * SEqPre_3 st u + SEqPre_4 st u * SEqPre_4 st u ≠ 0 := by
  by_cases hA : u.a_x * u.a_x + u.a_y * u.a_y + u.a_z * u.a_z = 0
  · rw [updateFilter, if_pos hA] at h; exact Option.noConfusion h
  by_cases hM : u.m_x * u.m_x + u.m_y * u.m_y + u.m_z * u.m_z = 0
  · rw [updateFilter, if_neg hA, if_pos hM] at h; exact Option.noConfusion h
  by_cases hG : gradRaw_1 st u * gradRaw_1 st u + gradRaw_2 st u * gradRaw_2 st u +
      gradRaw_3 st u * gradRaw_3 st u + gradRaw_4 st u * gradRaw_4 st u = 0
  · rw [updateFilter, if_neg hA, if_neg hM, if_pos hG] at h; exact Option.noConfusion h
  by_cases hQ : SEqPre_1 st u * SEqPre_1 st u + SEqPre_2 st u * SEqPre_2 st u +
      SEqPre_3 st u * SEqPre_3 st u + SEqPre_4 st u * SEqPre_4 st u = 0
  · rw [updateFilter, if_neg hA, if_neg hM, if_neg hG, if_pos hQ] at h
    exact Option.noConfusion h
  exact hQ

/-- Whenever `updateFilter` succeeds (none of its divisors is zero), the
renormalisation of MARGfilter.cpp lines 183-188 leaves SEq with squared
Euclidean norm exactly 1 in real arithmetic: the invariant of claim C1
holds on every non-degenerate cycle, and fails only through the missing
zero-norm guards. -/
theorem updateFilter_unit_norm (st : MARG) (u : MARGIn) (st2 : MARG)
    (h : updateFilter st u = some st2) :
    st2.SEq_1 * st2.SEq_1 + st2.SEq_2 * st2.SEq_2 + st2.SEq_3 * st2.SEq_3 +
      st2.SEq_4 * st2.SEq_4 = 1 := by
  have hQ := updateFilter_SEqPre_ne st u st2 h
  have h2 := updateFilter_some st u st2 h
  subst h2
  have hnn : 0 ≤ SEqPre_1 st u * SEqPre_1 st u + SEqPre_2 st u * SEqPre_2 st u +
      SEqPre_3 st u * SEqPre_3 st u + SEqPre_4 st u * SEqPre_4 st u :=
    add_nonneg (add_nonneg (add_nonneg (mul_self_nonneg _) (mul_self_nonneg _))
      (mul_self_nonneg _)) (mul_self_nonneg _)
  have hsq : SEqPreNorm st u * SEqPreNorm st u =
      SEqPre_1 st u * SEqPre_1 st u + SEqPre_2 st u * SEqPre_2 st u +
        SEqPre_3 st u * SEqPre_3 st u + SEqPre_4 st u * SEqPre_4 st u := by
    rw [SEqPreNorm, norm4]
    exact Real.mul_self_sqrt hnn
  have hN : SEqPreNorm st u ≠ 0 := by
    intro h0
    rw [h0, zero_mul] at hsq
    exact hQ hsq.symm
  show SEqNew_1 st u * SEqNew_1 st u + SEqNew_2 st u * SEqNew_2 st u +
      SEqNew_3 st u * SEqNew_3 st u + SEqNew_4 st u * SEqNew_4 st u = 1
  rw [SEqNew_1, SEqNew_2, SEqNew_3, SEqNew_4]
  field_simp
  linarith [hsq]
